import Mathlib

/-!
Verification development for the five-bells-connector configuration resolver
(`src/lib/config.js`, packed second in the source slice) and the ledger-plugin
bootstrap registry (`src/lib/multiledger.js`).

Modelling conventions:
* JavaScript `undefined`-or-string values become `Option String`; JS truthiness
  of such a value is `truthy` below (absent and the empty string are falsy).
* Environment variables that the source immediately `JSON.parse`s
  (`CONNECTOR_CREDENTIALS`, `CONNECTOR_LEDGERS`, `CONNECTOR_PAIRS`,
  `CONNECTOR_NOTIFICATION_KEYS`) are modelled at their parsed shape; JSON
  syntax errors are outside the claims under study.  `Config.castBool` from
  five-bells-shared is likewise modelled at its parsed shape (`Option Bool`
  with a default).
* JS numbers are `JsNum`: NaN, the two infinities, or a finite `Rat`.  The
  JS coercions `+s` / `Number(s)` are modelled by `jsStringToNumber`, which
  implements the `StringNumericLiteral` grammar: surrounding whitespace, an
  optional sign before `Infinity` or a decimal literal with optional fraction
  and exponent, and unsigned hex/octal/binary integer literals; anything else
  is NaN.
* Thrown exceptions become `Except JsError`; `JsError.error` is a thrown
  `new Error(msg)`, `JsError.moduleNotFound` is the failure of a dynamic
  `require`, and `JsError.fsError` is a filesystem exception.
* The filesystem is an explicit value: a readability set (for `fs.accessSync`)
  and a path-to-contents table (for `fs.readFileSync`), plus the two test
  fixture files the config loader can pull in under test mode.
-/

/-- JS truthiness of an `undefined`-or-string value: `undefined` and `""` are
falsy, any other string is truthy. -/
def truthy : Option String → Bool
  | none => false
  | some s => !s.isEmpty

/-- JS `v || d` for an `undefined`-or-string value `v` and string default. -/
def jsOr (v : Option String) (d : String) : String :=
  match v with
  | none => d
  | some s => if s.isEmpty then d else s

/-- Whether an `Except` value is a success. -/
def isOkE {ε α : Type} : Except ε α → Bool
  | .ok _ => true
  | .error _ => false

/-- A JS number as the numeric knobs can observe it: NaN, the two infinities,
or a finite value (a Rat; the claims only compare exact grammar-derived
values, where double rounding cannot distinguish them). -/
inductive JsNum where
  | nan
  | inf
  | negInf
  | num (q : Rat)
deriving Repr, DecidableEq

/-- Value of a list of decimal digit characters. -/
def digitsVal (cs : List Char) : Nat :=
  cs.foldl (fun n c => n * 10 + (c.toNat - 48)) 0

/-- Hex digit predicate of the JS numeric grammar. -/
def isHexDigit (c : Char) : Bool :=
  if c.isDigit then true
  else if 'a' ≤ c ∧ c ≤ 'f' then true
  else if 'A' ≤ c ∧ c ≤ 'F' then true
  else false

/-- Value of a hex digit character. -/
def hexVal (c : Char) : Nat :=
  if c.isDigit then c.toNat - 48
  else if 'a' ≤ c ∧ c ≤ 'f' then c.toNat - 87
  else if 'A' ≤ c ∧ c ≤ 'F' then c.toNat - 55
  else 0

/-- Octal digit predicate. -/
def isOctalDigit (c : Char) : Bool := '0' ≤ c ∧ c ≤ '7'

/-- Binary digit predicate. -/
def isBinaryDigit (c : Char) : Bool := c = '0' ∨ c = '1'

/-- The `DecimalDigits [. [DecimalDigits]]` / `. DecimalDigits` mantissa of
the JS `StrUnsignedDecimalLiteral` grammar: its value plus whatever follows
(the exponent part); at least one digit is required. -/
def parseDecMantissa (cs : List Char) : Option (Rat × List Char) :=
  let intPart := cs.takeWhile Char.isDigit
  let rest1 := cs.dropWhile Char.isDigit
  match rest1 with
  | '.' :: rest2 =>
    let frac := rest2.takeWhile Char.isDigit
    let rest3 := rest2.dropWhile Char.isDigit
    if intPart.isEmpty && frac.isEmpty then none
    else
      some ((digitsVal intPart : Rat) + (digitsVal frac : Rat) / ((10 ^ frac.length : Nat) : Rat),
        rest3)
  | _ => if intPart.isEmpty then none else some ((digitsVal intPart : Rat), rest1)

/-- The optional `ExponentPart` (`e`/`E`, optional sign, decimal digits) of
the JS numeric grammar, as a sign flag (true = negative) and magnitude; the
empty remainder is exponent 0. -/
def parseExponent (cs : List Char) : Option (Bool × Nat) :=
  match cs with
  | [] => some (false, 0)
  | e :: rest =>
    if e = 'e' ∨ e = 'E' then
      match rest with
      | '+' :: ds =>
        if ds.isEmpty || !ds.all Char.isDigit then none else some (false, digitsVal ds)
      | '-' :: ds =>
        if ds.isEmpty || !ds.all Char.isDigit then none else some (true, digitsVal ds)
      | ds => if ds.isEmpty || !ds.all Char.isDigit then none else some (false, digitsVal ds)
    else none

/-- An unsigned decimal literal with optional fraction and exponent
(`"12"`, `"12.5"`, `".5e2"`, `"1e-3"`, `"12."`); anything else is NaN. -/
def parseDecimal (cs : List Char) : Option Rat :=
  match parseDecMantissa cs with
  | none => none
  | some (m, rest) =>
    match parseExponent rest with
    | none => none
    | some (neg, k) =>
      some (if neg then m / ((10 ^ k : Nat) : Rat) else m * ((10 ^ k : Nat) : Rat))

/-- The `NonDecimalIntegerLiteral` forms of the JS numeric grammar: `0x`/`0X`
hex, `0o`/`0O` octal and `0b`/`0B` binary integers (sign not permitted). -/
def parseNonDecimal (cs : List Char) : Option Rat :=
  match cs with
  | '0' :: x :: ds =>
    if (x = 'x' ∨ x = 'X') ∧ ds ≠ [] ∧ ds.all isHexDigit then
      some ((ds.foldl (fun n c => n * 16 + hexVal c) 0 : Nat) : Rat)
    else if (x = 'o' ∨ x = 'O') ∧ ds ≠ [] ∧ ds.all isOctalDigit then
      some ((ds.foldl (fun n c => n * 8 + (c.toNat - 48)) 0 : Nat) : Rat)
    else if (x = 'b' ∨ x = 'B') ∧ ds ≠ [] ∧ ds.all isBinaryDigit then
      some ((ds.foldl (fun n c => n * 2 + (c.toNat - 48)) 0 : Nat) : Rat)
    else none
  | _ => none

/-- Strip leading and trailing whitespace from a character list (the trim the
JS `Number` coercion performs before parsing). -/
def trimChars (cs : List Char) : List Char :=
  ((cs.dropWhile Char.isWhitespace).reverse.dropWhile Char.isWhitespace).reverse

/-- `"Infinity"` or a decimal literal, unsigned (the part a sign may
precede). -/
def parseUnsigned (cs : List Char) : JsNum :=
  if cs = "Infinity".toList then .inf
  else
    match parseDecimal cs with
    | some q => .num q
    | none => .nan

/-- Model of the JS numeric coercion `Number(s)` / unary `+s`
(StringNumericLiteral): whitespace-only strings convert to `0`; an optional
sign may precede `Infinity` or a decimal literal with optional fraction and
exponent; unsigned hex/octal/binary integer literals are accepted; anything
else is NaN. -/
def jsStringToNumber (s : String) : JsNum :=
  match trimChars s.toList with
  | [] => .num 0
  | '+' :: rest => parseUnsigned rest
  | '-' :: rest =>
    match parseUnsigned rest with
    | .inf => .negInf
    | .num q => .num (-q)
    | _ => .nan
  | cs =>
    match parseNonDecimal cs with
    | some q => .num q
    | none => parseUnsigned cs

/-- `+Config.getEnv(...) || DEFAULT` (also `Number(...) || DEFAULT`): an absent
variable coerces to NaN, and NaN and `0` are falsy, so they fall back to the
default; any other number — including the infinities — is kept. -/
def plusNumOrDefault (s : Option String) (d : Rat) : JsNum :=
  match s with
  | none => .num d
  | some str =>
    match jsStringToNumber str with
    | .nan => .num d
    | .num q => if q = 0 then .num d else .num q
    | v => v

/-- `str ? +str : DEFAULT` (used for `FX_SPREAD` and `SLIPPAGE`): only an
absent or empty string falls back; a present non-empty string is coerced, and
an unparsable one therefore produces NaN. -/
def ternaryNumOrDefault (s : Option String) (d : Rat) : JsNum :=
  match s with
  | none => .num d
  | some str => if str.isEmpty then .num d else jsStringToNumber str

/-- One entry of the parsed `CONNECTOR_CREDENTIALS` JSON object
(`{account_uri|account, username, password?, key?, cert?, ca?, type?}`). -/
structure RawCredential where
  account_uri : Option String := none
  account : Option String := none
  username : Option String := none
  password : Option String := none
  key : Option String := none
  cert : Option String := none
  ca : Option String := none
  type : Option String := none
deriving Repr, DecidableEq

/-- A `{currency, ledger}` descriptor produced by `parseLedgers`. -/
structure LedgerDesc where
  currency : String
  ledger : String
deriving Repr, DecidableEq

/-- The process environment under the `CONNECTOR_` namespace, with the
JSON-valued and boolean-valued variables at their parsed shape, plus the two
bits of ambient process state the loader inspects (`NODE_ENV === 'production'`
and the mocha-detection heuristic of `isRunningTests`). -/
structure Env where
  credentials : List (String × RawCredential) := []
  adminUser : Option String := none
  adminPass : Option String := none
  adminKey : Option String := none
  adminCert : Option String := none
  adminCa : Option String := none
  ledgers : List String := []
  pairs : Option (List (List String)) := none
  notificationVerify : Option Bool := none
  notificationKeys : List (String × String) := []
  debugAutofund : Option Bool := none
  debugReplyNotifications : Option Bool := none
  backend : Option String := none
  backendUri : Option String := none
  minMessageWindow : Option String := none
  maxHoldTime : Option String := none
  fxSpread : Option String := none
  slippage : Option String := none
  routeBroadcastInterval : Option String := none
  routeCleanupInterval : Option String := none
  routeExpiry : Option String := none
  isProduction : Bool := false
  runningTests : Bool := false
  unitTestOverride : Option Bool := none
deriving Repr, DecidableEq

/-- The filesystem as the loader sees it: which paths `fs.accessSync` accepts,
what `fs.readFileSync` returns, and the two test fixture files
(`test/data/ledgerCredentials.json`, `test/data/tradingPairs.json`). -/
structure FS where
  readable : List String := []
  contents : List (String × String) := []
  fixtureLedgerCredentials : List (String × RawCredential) := []
  fixtureTradingPairs : List (List String) := []
deriving Repr, DecidableEq

/-- Errors surfaced by the modelled code. -/
inductive JsError where
  | error (msg : String)
  | moduleNotFound (name : String)
  | fsError (msg : String)
deriving Repr, DecidableEq

instance exceptDecEq {ε α : Type} [DecidableEq ε] [DecidableEq α] :
    DecidableEq (Except ε α) := fun x y =>
  match x, y with
  | .ok a, .ok b =>
    if h : a = b then .isTrue (by rw [h]) else .isFalse (fun hc => h (Except.ok.inj hc))
  | .error e, .error f =>
    if h : e = f then .isTrue (by rw [h]) else .isFalse (fun hc => h (Except.error.inj hc))
  | .ok _, .error _ => .isFalse (fun hc => Except.noConfusion hc)
  | .error _, .ok _ => .isFalse (fun hc => Except.noConfusion hc)

/-- `fs.accessSync(path, fs.R_OK)` as called under a truthiness guard
(`credential.cert && fs.accessSync(credential.cert, fs.R_OK)`): a falsy value
skips the check, an unreadable path throws. -/
def accessIfTruthy (fs : FS) (v : Option String) : Except String Unit :=
  match v with
  | none => .ok ()
  | some p =>
    if p.isEmpty then .ok ()
    else if fs.readable.contains p then .ok () else .error ("EACCES: " ++ p)

/-- Decidable form of "the guarded `accessSync` call succeeds". -/
def fileOk (fs : FS) (v : Option String) : Bool :=
  match v with
  | none => true
  | some p => p.isEmpty || fs.readable.contains p

/-- `fs.readFileSync(path)`. -/
def readFileSync (fs : FS) (path : String) : Except JsError String :=
  match fs.contents.lookup path with
  | some data => .ok data
  | none => .error (.fsError ("ENOENT: no such file " ++ path))

/-- `fs.readFileSync` applied to a possibly-`undefined` path (JS throws a
TypeError on `undefined`). -/
def readFileSyncOpt (fs : FS) (v : Option String) : Except JsError String :=
  match v with
  | none => .error (.fsError "TypeError: path must be a string")
  | some p => readFileSync fs p

/-- `v && fs.readFileSync(v)`: `undefined` and `""` short-circuit to
themselves, a non-empty path is read. -/
def readIfTruthy (fs : FS) (v : Option String) : Except JsError (Option String) :=
  match v with
  | none => .ok none
  | some p =>
    if p.isEmpty then .ok (some "")
    else (readFileSync fs p).map some

/-- `parseLedgers`: split each `"CUR@uri"` token on the first `@`
(`indexOf` / `substr`; with no `@`, `indexOf` is `-1`, so the currency is `""`
and the ledger is the whole token). -/
def splitLedgerToken (s : String) : LedgerDesc :=
  match s.toList.findIdx? (fun ch => ch == '@') with
  | none => { currency := "", ledger := s }
  | some i => { currency := ⟨s.toList.take i⟩, ledger := ⟨s.toList.drop (i + 1)⟩ }

/-- `parseLedgers()`. -/
def parseLedgers (env : Env) : List LedgerDesc :=
  env.ledgers.map splitLedgerToken

/-- Admin credential shape, used both for the raw environment values
(`parseAdminEnv`) and for the resolved record (paths replaced by contents). -/
structure AdminCreds where
  username : String
  password : Option String := none
  key : Option String := none
  cert : Option String := none
  ca : Option String := none
deriving Repr, DecidableEq

/-- `parseAdminEnv()`: `ADMIN_USER || 'admin'` and the raw remaining fields. -/
def parseAdminEnv (env : Env) : AdminCreds :=
  { username := jsOr env.adminUser "admin"
    password := env.adminPass
    key := env.adminKey
    cert := env.adminCert
    ca := env.adminCa }

/-- The notification policy record returned by `parseNotificationSignEnv`. -/
structure Notifications where
  must_verify : Bool
  keys : List (String × String)
deriving Repr, DecidableEq

/-- `parseNotificationSignEnv()`: `NOTIFICATION_VERIFY` defaults to
`NODE_ENV === 'production'`; the keys object is the parsed
`NOTIFICATION_KEYS`. -/
def parseNotificationSignEnv (env : Env) : Notifications :=
  { must_verify := env.notificationVerify.getD env.isProduction
    keys := env.notificationKeys }

/-- `useTestConfig()`: `!castBool(UNIT_TEST_OVERRIDE) && isRunningTests()`. -/
def useTestConfig (env : Env) : Bool :=
  !(env.unitTestOverride.getD false) && env.runningTests

/-- Modelled from the spec: `Utils.getPairs` lives in `src/lib/utils.js`,
which is not part of the source slice.  Spec: generated pairs are the full
combinatorial set over the configured ledgers, each unordered pair exactly
once, with no self-pairing of a ledger with itself. -/
def getPairs : List LedgerDesc → List (List LedgerDesc)
  | [] => []
  | x :: xs => xs.map (fun y => [x, y]) ++ getPairs xs

/-- `generateDefaultPairs(ledgers)`: render each generated pair back to
`"<currency>@<ledger>"` tokens. -/
def generateDefaultPairs (ledgers : List LedgerDesc) : List (List String) :=
  (getPairs ledgers).map fun pair => pair.map fun desc => desc.currency ++ "@" ++ desc.ledger

/-- The trading-pair assembly expression
`JSON.parse(Config.getEnv(envP, 'PAIRS') || 'false') || generateDefaultPairs(ledgers)`:
an absent variable parses to `false` (falsy, so defaults are generated); a
present variable parses to a JS array, and every array — including the empty
one — is truthy, so it is used verbatim. -/
def resolveTradingPairs (env : Env) (ledgers : List LedgerDesc) : List (List String) :=
  match env.pairs with
  | none => generateDefaultPairs ledgers
  | some l => l

/-- The `try { cert && accessSync; key && accessSync; ca && accessSync }`
sequence shared by `validateCredentialsEnv` and `validateAdminEnv`. -/
def accessChain (fs : FS) (cert key ca : Option String) : Except String Unit :=
  match accessIfTruthy fs cert with
  | .error e => .error e
  | .ok _ =>
    match accessIfTruthy fs key with
    | .error e => .error e
    | .ok _ => accessIfTruthy fs ca

/-- The per-credential body of the `_.forEach` in `validateCredentialsEnv`:
the four structural checks in source order, then the guarded `accessSync`
calls wrapped into a "Failed to read credentials" error. -/
def validateCredentialOne (fs : FS) (c : RawCredential) (ledger : String) : Except JsError Unit :=
  if c.key = none ∧ c.password = none then
    .error (.error ("Missing key or password for ledger: " ++ ledger))
  else if c.username = none then
    .error (.error ("Missing username for ledger: " ++ ledger))
  else if ¬((c.cert = none) ↔ (c.key = none)) then
    .error (.error ("Missing certificate or key for ledger: " ++ ledger))
  else if c.account_uri = none then
    .error (.error ("Missing account_uri for ledger: " ++ ledger))
  else
    match accessChain fs c.cert c.key c.ca with
    | .ok _ => .ok ()
    | .error msg => .error (.error ("Failed to read credentials for ledger " ++ ledger ++ ": " ++ msg))

/-- `_.forEach` over the parsed credentials object, in insertion order; a
thrown error aborts the iteration. -/
def validateCredList (fs : FS) : List (String × RawCredential) → Except JsError Unit
  | [] => .ok ()
  | p :: rest =>
    match validateCredentialOne fs p.2 p.1 with
    | .error e => .error e
    | .ok _ => validateCredList fs rest

/-- `validateCredentialsEnv()`. -/
def validateCredentialsEnv (fs : FS) (env : Env) : Except JsError Unit :=
  validateCredList fs env.credentials

/-- `validateAdminEnv()`. -/
def validateAdminEnv (fs : FS) (env : Env) : Except JsError Unit :=
  if ¬(((parseAdminEnv env).cert = none) ↔ ((parseAdminEnv env).key = none)) then
    .error (.error "Missing ADMIN_CERT or ADMIN_KEY")
  else
    match accessChain fs (parseAdminEnv env).cert (parseAdminEnv env).key (parseAdminEnv env).ca with
    | .ok _ => .ok ()
    | .error msg => .error (.error ("Failed to read admin credentials: " ++ msg))

/-- The per-ledger loop of `validateNotificationEnv`: the key must be present
in the keys object and `cc.validateCondition` (the five-bells-condition
structural check, abstracted as the predicate `cc`) must accept it. -/
def checkLedgerKeys (cc : String → Bool) (keys : List (String × String)) :
    List LedgerDesc → Except JsError Unit
  | [] => .ok ()
  | d :: rest =>
    match keys.lookup d.ledger with
    | none => .error (.error ("Missing notification signing keys for ledger: " ++ d.ledger))
    | some k =>
      if cc k then checkLedgerKeys cc keys rest
      else .error (.error ("Failed to read signing key for ledger " ++ d.ledger))

/-- `validateNotificationEnv()`: the whole loop runs only under
`must_verify`. -/
def validateNotificationEnv (cc : String → Bool) (env : Env) : Except JsError Unit :=
  if (parseNotificationSignEnv env).must_verify then
    checkLedgerKeys cc (parseNotificationSignEnv env).keys (parseLedgers env)
  else .ok ()

/-- `validateLocalEnvConfig()`: notifications, then credentials, then
admin. -/
def validateLocalEnvConfig (cc : String → Bool) (fs : FS) (env : Env) : Except JsError Unit :=
  match validateNotificationEnv cc env with
  | .error e => .error e
  | .ok _ =>
    match validateCredentialsEnv fs env with
    | .error e => .error e
    | .ok _ => validateAdminEnv fs env

def DEFAULT_MIN_MESSAGE_WINDOW : Rat := 1
def DEFAULT_MAX_HOLD_TIME : Rat := 10
def DEFAULT_FX_SPREAD : Rat := 2 / 1000
def DEFAULT_SLIPPAGE : Rat := 1 / 1000
def DEFAULT_ROUTE_BROADCAST_INTERVAL : Rat := 30 * 1000
def DEFAULT_ROUTE_CLEANUP_INTERVAL : Rat := 1000
def DEFAULT_ROUTE_EXPIRY : Rat := 45 * 1000

/-- Expiry knobs of the resolved config. -/
structure Expiry where
  minMessageWindow : JsNum
  maxHoldTime : JsNum
deriving Repr, DecidableEq

/-- Feature flags of the resolved config. -/
structure Features where
  debugAutoFund : Bool
  debugReplyNotifications : Bool
deriving Repr, DecidableEq

/-- The object returned by `getLocalConfig` (`server` is reduced to its only
field, `base_uri`, which is absent outside test mode). -/
structure ResolvedConfig where
  backend : String
  ledgerCredentials : List (String × RawCredential)
  fxSpread : JsNum
  slippage : JsNum
  expiry : Expiry
  features : Features
  admin : Option AdminCreds
  tradingPairs : List (List String)
  server : Option String
  backendUri : Option String
  notifications : Notifications
  routeBroadcastInterval : JsNum
  routeCleanupInterval : JsNum
  routeExpiry : JsNum
deriving Repr, DecidableEq

/-- The `useAdmin` local of `getLocalConfig`:
`adminEnv.username && (adminEnv.password || adminEnv.key)`. -/
def useAdmin (env : Env) : Bool :=
  !(parseAdminEnv env).username.isEmpty
    && (truthy (parseAdminEnv env).password || truthy (parseAdminEnv env).key)

/-- The admin object construction of `getLocalConfig`: read `key`, `cert`,
`ca` under truthiness guards and drop `undefined` fields (`_.omitBy`). -/
def resolveAdmin (fs : FS) (adminEnv : AdminCreds) : Except JsError (Option AdminCreds) :=
  match readIfTruthy fs adminEnv.key with
  | .error e => .error e
  | .ok keyData =>
    match readIfTruthy fs adminEnv.cert with
    | .error e => .error e
    | .ok certData =>
      match readIfTruthy fs adminEnv.ca with
      | .error e => .error e
      | .ok caData =>
        .ok (some { username := adminEnv.username
                    password := adminEnv.password
                    key := keyData
                    cert := certData
                    ca := caData })

/-- The per-credential body of `parseCredentials`: a credential with a `key`
field is a client-certificate credential, whose `key`/`cert` (and guarded
`ca`) paths are replaced by file contents; otherwise only the guarded `ca` is
read.  `_.assign` keeps every other field; `_.omitBy(_, _.isUndefined)` is the
`Option` structure itself. -/
def parseCredentialEntry (fs : FS) (c : RawCredential) : Except JsError RawCredential :=
  if c.key.isSome then
    match readFileSyncOpt fs c.key with
    | .error e => .error e
    | .ok keyData =>
      match readFileSyncOpt fs c.cert with
      | .error e => .error e
      | .ok certData =>
        match readIfTruthy fs c.ca with
        | .error e => .error e
        | .ok caData => .ok { c with key := some keyData, cert := some certData, ca := caData }
  else
    match readIfTruthy fs c.ca with
    | .error e => .error e
    | .ok caData => .ok { c with ca := caData }

/-- `parseCredentials()`: `_.mapValues` over the parsed credentials object. -/
def parseCredentials (fs : FS) : List (String × RawCredential) →
    Except JsError (List (String × RawCredential))
  | [] => .ok []
  | (id, c) :: rest =>
    match parseCredentialEntry fs c with
    | .error e => .error e
    | .ok rc =>
      match parseCredentials fs rest with
      | .error e => .error e
      | .ok rs => .ok ((id, rc) :: rs)

/-- The final object literal of `getLocalConfig`, parameterized by the values
that differ between the test-mode and normal branches. -/
def mkResolvedConfig (env : Env) (admin : Option AdminCreds)
    (ledgerCredentials : List (String × RawCredential)) (tradingPairs : List (List String))
    (server : Option String) (debugReplyNotifications : Bool) : ResolvedConfig :=
  { backend := jsOr env.backend "fixerio"
    ledgerCredentials := ledgerCredentials
    fxSpread := ternaryNumOrDefault env.fxSpread DEFAULT_FX_SPREAD
    slippage := ternaryNumOrDefault env.slippage DEFAULT_SLIPPAGE
    expiry := { minMessageWindow := plusNumOrDefault env.minMessageWindow DEFAULT_MIN_MESSAGE_WINDOW
                maxHoldTime := plusNumOrDefault env.maxHoldTime DEFAULT_MAX_HOLD_TIME }
    features := { debugAutoFund := env.debugAutofund.getD false
                  debugReplyNotifications := debugReplyNotifications }
    admin := admin
    tradingPairs := tradingPairs
    server := server
    backendUri := env.backendUri
    notifications := parseNotificationSignEnv env
    routeBroadcastInterval :=
      plusNumOrDefault env.routeBroadcastInterval DEFAULT_ROUTE_BROADCAST_INTERVAL
    routeCleanupInterval :=
      plusNumOrDefault env.routeCleanupInterval DEFAULT_ROUTE_CLEANUP_INTERVAL
    routeExpiry := plusNumOrDefault env.routeExpiry DEFAULT_ROUTE_EXPIRY }

/-- `getLocalConfig()`: validate, then assemble; the auto-fund/admin
consistency check can throw, admin file reads can throw, and outside test mode
`parseCredentials` can throw.  In test mode the fixture credentials are used,
empty trading pairs are replaced by the fixture pairs, and
`debugReplyNotifications` is forced on. -/
def getLocalConfig (cc : String → Bool) (env : Env) (fs : FS) : Except JsError ResolvedConfig :=
  match validateLocalEnvConfig cc fs env with
  | .error e => .error e
  | .ok _ =>
    if (env.debugAutofund.getD false) && !useAdmin env then
      .error (.error
        "CONNECTOR_DEBUG_AUTOFUND requires either CONNECTOR_ADMIN_PASS or CONNECTOR_ADMIN_KEY")
    else
      match (if useAdmin env then resolveAdmin fs (parseAdminEnv env) else .ok none) with
      | .error e => .error e
      | .ok admin =>
        if useTestConfig env then
          .ok (mkResolvedConfig env admin fs.fixtureLedgerCredentials
            (if (resolveTradingPairs env (parseLedgers env)).isEmpty then fs.fixtureTradingPairs
             else resolveTradingPairs env (parseLedgers env))
            (some "http://localhost") true)
        else
          match parseCredentials fs env.credentials with
          | .error e => .error e
          | .ok lcreds =>
            .ok (mkResolvedConfig env admin lcreds
              (resolveTradingPairs env (parseLedgers env)) none
              (env.debugReplyNotifications.getD false))

/-- Modelled from the spec: `src/common/health.js` is not part of the source
slice.  Spec: the health status is one of an enumerated set including
"not ok" (the registry's initial value) and "ok". -/
inductive HealthStatus where
  | statusOk
  | statusNotOk
deriving Repr, DecidableEq

/-- The `debugAutofund` option handed to a plugin when `debugAutoFund` is on:
`{admin: config.get('admin'), connector: config.getIn(['server','base_uri'])}`. -/
structure AutofundOptions where
  admin : Option AdminCreds
  connector : Option String
deriving Repr, DecidableEq

/-- The options object passed to a plugin constructor by `buildLedgers`
(minus the logger, which carries no data). -/
structure PluginOptions where
  id : String
  auth : RawCredential
  debugReplyNotifications : Bool
  debugAutofund : Option AutofundOptions
deriving Repr, DecidableEq

/-- A constructed plugin instance: which module built it, the options it was
given, and the snapshot its `isConnected()` reports. -/
structure LedgerHandle where
  pluginModule : String
  options : PluginOptions
  connected : Bool
deriving Repr, DecidableEq

/-- The module environment `require` resolves against: which `ilp-plugin-*`
modules exist, and what `isConnected()` the instance constructed for a given
ledger id reports. -/
structure PluginWorld where
  available : List String
  connected : String → Bool

/-- The `Multiledger` object: the ledger-id → handle mapping and the health
flag it is initialized with. -/
structure Multiledger where
  ledgers : List (String × LedgerHandle)
  ledgersHealth : HealthStatus
deriving Repr, DecidableEq

/-- The deprecation warning logged when `account_uri` is migrated. -/
def deprecationWarning : String :=
  "DEPRECATED: The key `account_uri` in ledger credentials has been renamed `account`"

/-- The `account_uri` migration at the top of the `buildLedgers` loop: under a
truthiness guard, log a warning, copy the value to `account` and delete
`account_uri`. -/
def migrateCredential (c : RawCredential) : RawCredential × List String :=
  if truthy c.account_uri then
    ({ c with account := c.account_uri, account_uri := none }, [deprecationWarning])
  else (c, [])

/-- One iteration of the `buildLedgers` loop: migrate the deprecated field,
default the type (`creds.type = creds.type || 'bells'`), resolve the plugin
module by name (`require('ilp-plugin-' + creds.type)` — failure is the
module system's generic lookup error), and construct the handle. -/
def buildOne (world : PluginWorld) (cfg : ResolvedConfig) (ledgerId : String)
    (c : RawCredential) : Except JsError (LedgerHandle × List String) :=
  match migrateCredential c with
  | (c1, warns) =>
    if world.available.contains ("ilp-plugin-" ++ jsOr c1.type "bells") then
      .ok ({ pluginModule := "ilp-plugin-" ++ jsOr c1.type "bells"
             options := { id := ledgerId
                          auth := { c1 with type := some (jsOr c1.type "bells") }
                          debugReplyNotifications := cfg.features.debugReplyNotifications
                          debugAutofund :=
                            if cfg.features.debugAutoFund then
                              some { admin := cfg.admin, connector := cfg.server }
                            else none }
             connected := world.connected ledgerId }, warns)
    else .error (.moduleNotFound ("ilp-plugin-" ++ jsOr c1.type "bells"))

/-- The `buildLedgers` loop over `Object.keys(ledgerCredentials)` in insertion
order, accumulating the handle map and the logged warnings. -/
def buildLedgersList (world : PluginWorld) (cfg : ResolvedConfig) :
    List (String × RawCredential) → Except JsError (List (String × LedgerHandle) × List String)
  | [] => .ok ([], [])
  | (id, c) :: rest =>
    match buildOne world cfg id c with
    | .error e => .error e
    | .ok (h, w) =>
      match buildLedgersList world cfg rest with
      | .error e => .error e
      | .ok (hs, ws) => .ok ((id, h) :: hs, w ++ ws)

/-- `Multiledger.prototype.buildLedgers()`. -/
def buildLedgers (world : PluginWorld) (cfg : ResolvedConfig) :
    Except JsError (List (String × LedgerHandle) × List String) :=
  buildLedgersList world cfg cfg.ledgerCredentials

/-- The `Multiledger` constructor: build the ledgers and initialize
`ledgersHealth` to the "not ok" status.  The second component is the list of
deprecation warnings the constructor logged. -/
def newMultiledger (world : PluginWorld) (cfg : ResolvedConfig) :
    Except JsError (Multiledger × List String) :=
  (buildLedgers world cfg).map fun p =>
    ({ ledgers := p.1, ledgersHealth := HealthStatus.statusNotOk }, p.2)

/-- `Multiledger.prototype.getLedger`. -/
def getLedger (m : Multiledger) (ledgerId : String) : Option LedgerHandle :=
  m.ledgers.lookup ledgerId

/-- `Multiledger.prototype.getStatus`: `_.every(this.ledgers, l => l.isConnected())`. -/
def getStatus (m : Multiledger) : Bool :=
  m.ledgers.all fun p => p.2.connected

/-- A structural-condition check that rejects everything; stands in for
`cc.validateCondition` in concrete runs that never reach it. -/
def ccFalse : String → Bool := fun _ => false

/-- An empty filesystem: nothing readable, nothing stored. -/
def fsEmpty : FS := {}

/-- An empty environment: no `CONNECTOR_*` variables, not production, not
running under the test runner. -/
def envEmpty : Env := {}

/-- The config assembled from the empty environment. -/
def cfg0 : ResolvedConfig := mkResolvedConfig envEmpty none [] [] none false

/-- A password credential that satisfies every check of
`validateCredentialsEnv` (account identifier under the legacy name). -/
def credGood : RawCredential :=
  { account_uri := some "http://blue.example/accounts/mark"
    username := some "mark"
    password := some "passphrase" }

/-- A password credential that carries its account identifier under the
current name `account` instead of the legacy `account_uri`. -/
def credWithAccount : RawCredential :=
  { account := some "http://red.example/accounts/mark"
    username := some "mark"
    password := some "passphrase" }

/-- `credGood` with a connectivity type for which no plugin module exists. -/
def credUnknownType : RawCredential :=
  { credGood with type := some "unknown" }

/-- A credential supplying the legacy `account_uri` field with the empty
string as its value. -/
def credEmptyAccountUri : RawCredential :=
  { account_uri := some ""
    username := some "mark"
    password := some "passphrase" }

/-- A module environment in which only the default `bells` plugin exists and
every constructed handle reports connected. -/
def world1 : PluginWorld := { available := ["ilp-plugin-bells"], connected := fun _ => true }

/-- Two configured ledgers and an explicit empty `PAIRS` override. -/
def envPairsEmpty : Env := { ledgers := ["USD@L1", "EUR@L2"], pairs := some [] }

/-- An environment whose `FX_SPREAD` override does not parse as a number. -/
def envBadSpread : Env := { fxSpread := some "abc" }

/-- Verification required, one configured ledger, no notification keys. -/
def envMissingKeys : Env :=
  { ledgers := ["USD@http://usd-ledger.example"], notificationVerify := some true }

/-- An `Option String` environment override that the numeric knobs fall back
from: absent, or present but coercing to NaN. -/
def numFallback (s : Option String) : Prop :=
  s = none ∨ ∃ t, s = some t ∧ jsStringToNumber t = .nan

theorem except_error_ne_ok {ε α : Type} (e : ε) (a : α) :
    (Except.error e = Except.ok a) ↔ False := by
  constructor
  · intro h; exact Except.noConfusion h
  · intro h; exact h.elim

theorem accessIfTruthy_ok (fs : FS) (v : Option String) (h : fileOk fs v = true) :
    accessIfTruthy fs v = .ok () := by
  cases v with
  | none => rfl
  | some p =>
    simp only [fileOk, Bool.or_eq_true] at h
    rcases h with h | h
    · simp [accessIfTruthy, h]
    · simp only [accessIfTruthy]
      rw [h]
      simp

theorem accessChain_ok (fs : FS) (cert key ca : Option String)
    (h1 : fileOk fs cert = true) (h2 : fileOk fs key = true) (h3 : fileOk fs ca = true) :
    accessChain fs cert key ca = .ok () := by
  simp [accessChain, accessIfTruthy_ok fs cert h1, accessIfTruthy_ok fs key h2,
    accessIfTruthy_ok fs ca h3]

theorem plusNumOrDefault_fallback (s : Option String) (d : Rat) (h : numFallback s) :
    plusNumOrDefault s d = .num d := by
  rcases h with h | ⟨t, ht, hn⟩
  · rw [h]; rfl
  · rw [ht]; simp [plusNumOrDefault, hn]

theorem ternaryNumOrDefault_falsy (s : Option String) (d : Rat)
    (h : s = none ∨ s = some "") : ternaryNumOrDefault s d = .num d := by
  rcases h with h | h <;> rw [h] <;> rfl

/-- Reference evaluations of the numeric-coercion model on the
non-plain-decimal forms of the JS grammar: exponent notation, hex integers
and `Infinity` all parse (so they never satisfy `numFallback`), while a
non-numeric string is NaN. -/
theorem jsStringToNumber_grammar_forms :
    jsStringToNumber "1e3" = .num 1000
  ∧ jsStringToNumber "2e-3" = .num (1 / 500)
  ∧ jsStringToNumber "0x10" = .num 16
  ∧ jsStringToNumber "Infinity" = .inf
  ∧ jsStringToNumber "-Infinity" = .negInf
  ∧ jsStringToNumber "abc" = .nan := by
  refine ⟨?_, ?_, ?_, ?_, ?_, ?_⟩ <;> with_unfolding_all rfl

theorem validateCredList_ok_iff (fs : FS) : ∀ creds : List (String × RawCredential),
    validateCredList fs creds = .ok () ↔
      ∀ p ∈ creds, validateCredentialOne fs p.2 p.1 = .ok ()
  | [] => by simp [validateCredList]
  | p :: rest => by
    have ih := validateCredList_ok_iff fs rest
    cases hv : validateCredentialOne fs p.2 p.1 with
    | error e => simp [validateCredList, hv, except_error_ne_ok]
    | ok u => cases u; simp [validateCredList, hv, ih]

theorem checkLedgerKeys_ok_iff (cc : String → Bool) (keys : List (String × String)) :
    ∀ ls : List LedgerDesc,
      checkLedgerKeys cc keys ls = .ok () ↔
        ∀ d ∈ ls, ∃ k, keys.lookup d.ledger = some k ∧ cc k = true
  | [] => by simp [checkLedgerKeys]
  | d :: rest => by
    have ih := checkLedgerKeys_ok_iff cc keys rest
    cases hl : keys.lookup d.ledger with
    | none => simp [checkLedgerKeys, hl, except_error_ne_ok]
    | some k =>
      cases hk : cc k with
      | true => simp [checkLedgerKeys, hl, hk, ih]
      | false => simp [checkLedgerKeys, hl, hk, except_error_ne_ok]

theorem checkLedgerKeys_error (cc : String → Bool) (keys : List (String × String)) :
    ∀ (ls : List LedgerDesc) (e : JsError), checkLedgerKeys cc keys ls = .error e →
      ∃ d ∈ ls,
        (keys.lookup d.ledger = none ∧
          e = .error ("Missing notification signing keys for ledger: " ++ d.ledger))
        ∨ ∃ k, keys.lookup d.ledger = some k ∧ cc k = false ∧
            e = .error ("Failed to read signing key for ledger " ++ d.ledger)
  | [], e => by simp [checkLedgerKeys]
  | d :: rest, e => by
    intro h
    simp only [checkLedgerKeys] at h
    split at h
    next hl =>
      injection h with h
      exact ⟨d, by simp, Or.inl ⟨hl, h.symm⟩⟩
    next k hl =>
      split at h
      next hk =>
        obtain ⟨d2, hd2, hcase⟩ := checkLedgerKeys_error cc keys rest e h
        exact ⟨d2, by simp [hd2], hcase⟩
      next hk =>
        injection h with h
        exact ⟨d, by simp, Or.inr ⟨k, hl, by simpa using hk, h.symm⟩⟩

theorem getLocalConfig_ok_fields (cc : String → Bool) (env : Env) (fs : FS)
    (cfg : ResolvedConfig) (h : getLocalConfig cc env fs = .ok cfg) :
    cfg.fxSpread = ternaryNumOrDefault env.fxSpread DEFAULT_FX_SPREAD
  ∧ cfg.slippage = ternaryNumOrDefault env.slippage DEFAULT_SLIPPAGE
  ∧ cfg.expiry.minMessageWindow = plusNumOrDefault env.minMessageWindow DEFAULT_MIN_MESSAGE_WINDOW
  ∧ cfg.expiry.maxHoldTime = plusNumOrDefault env.maxHoldTime DEFAULT_MAX_HOLD_TIME
  ∧ cfg.routeBroadcastInterval =
      plusNumOrDefault env.routeBroadcastInterval DEFAULT_ROUTE_BROADCAST_INTERVAL
  ∧ cfg.routeCleanupInterval =
      plusNumOrDefault env.routeCleanupInterval DEFAULT_ROUTE_CLEANUP_INTERVAL
  ∧ cfg.routeExpiry = plusNumOrDefault env.routeExpiry DEFAULT_ROUTE_EXPIRY
  ∧ (useTestConfig env = false →
      cfg.tradingPairs = resolveTradingPairs env (parseLedgers env)) := by
  unfold getLocalConfig at h
  split at h
  · exact Except.noConfusion h
  · split at h
    · exact Except.noConfusion h
    · split at h
      · exact Except.noConfusion h
      · split at h
        next htest =>
          injection h with h
          subst h
          refine ⟨rfl, rfl, rfl, rfl, rfl, rfl, rfl, ?_⟩
          intro hfalse
          rw [htest] at hfalse
          exact Bool.noConfusion hfalse
        next htest =>
          split at h
          · exact Except.noConfusion h
          · injection h with h
            subst h
            exact ⟨rfl, rfl, rfl, rfl, rfl, rfl, rfl, fun _ => rfl⟩

/-- C1 (amended): for every ledger credential in the parsed CREDENTIALS map
whose referenced cert/key/ca files are readable, the per-credential validation
succeeds exactly when the credential has a key or a password, has a username,
has cert present iff key present, and carries the account identifier under
the legacy name `account_uri` (the current name `account` does not satisfy
the check); when it fails, the error message names that ledger; and the
whole-map validation succeeds exactly when every entry passes the
per-credential check. -/
theorem credential_validation_characterization (fs : FS) (ledger : String) (c : RawCredential)
    (hcert : fileOk fs c.cert = true) (hkey : fileOk fs c.key = true)
    (hca : fileOk fs c.ca = true) :
    (validateCredentialOne fs c ledger = .ok () ↔
      (¬(c.key = none ∧ c.password = none) ∧ ¬c.username = none
        ∧ ((c.cert = none) ↔ (c.key = none)) ∧ ¬c.account_uri = none))
  ∧ (validateCredentialOne fs c ledger ≠ .ok () →
      ∃ m ∈ ["Missing key or password for ledger: ", "Missing username for ledger: ",
             "Missing certificate or key for ledger: ", "Missing account_uri for ledger: "],
        validateCredentialOne fs c ledger = .error (.error (m ++ ledger)))
  ∧ (∀ creds : List (String × RawCredential),
      validateCredList fs creds = .ok () ↔
        ∀ p ∈ creds, validateCredentialOne fs p.2 p.1 = .ok ()) := by
  have hchain := accessChain_ok fs c.cert c.key c.ca hcert hkey hca
  refine ⟨?_, ?_, validateCredList_ok_iff fs⟩
  · unfold validateCredentialOne
    rw [hchain]
    split_ifs with h1 h2 h3 h4
    · constructor
      · intro he; exact absurd he (by simp [except_error_ne_ok])
      · intro hp; tauto
    · constructor
      · intro he; exact absurd he (by simp [except_error_ne_ok])
      · intro hp; tauto
    · constructor
      · intro he; exact absurd he (by simp [except_error_ne_ok])
      · intro hp; tauto
    · refine ⟨fun _ => ?_, fun _ => rfl⟩
      tauto
    · constructor
      · intro he; exact absurd he (by simp [except_error_ne_ok])
      · intro hp; tauto
  · unfold validateCredentialOne
    rw [hchain]
    split_ifs with h1 h2 h3 h4
    · intro _; exact ⟨"Missing key or password for ledger: ", by simp, rfl⟩
    · intro _; exact ⟨"Missing username for ledger: ", by simp, rfl⟩
    · intro _; exact ⟨"Missing account_uri for ledger: ", by simp, rfl⟩
    · intro hne; exact absurd rfl hne
    · intro _; exact ⟨"Missing certificate or key for ledger: ", by simp, rfl⟩

/-- C1 counterexample: a credential that has a password, a username, matching
cert/key presence and carries its account identifier under the current name
`account` is nonetheless rejected by `validateCredentialsEnv`, which demands
the legacy `account_uri` field — refuting the claim that either name passes
the account-identifier check. -/
theorem credential_current_name_rejected :
    credWithAccount.password ≠ none ∧ credWithAccount.username ≠ none
  ∧ ((credWithAccount.cert = none) ↔ (credWithAccount.key = none))
  ∧ credWithAccount.account ≠ none
  ∧ validateCredentialOne fsEmpty credWithAccount "red" =
      .error (.error "Missing account_uri for ledger: red") := by
  refine ⟨by decide, by decide, by decide, by decide, by decide⟩

/-- C1 witness: a complete legacy-named password credential passes the
per-credential validation on an empty (all-readable-irrelevant) filesystem. -/
theorem credential_validation_characterization_witness :
    validateCredentialOne fsEmpty credGood "blue" = .ok () :=
  (credential_validation_characterization fsEmpty "blue" credGood (by decide) (by decide)
    (by decide)).1.mpr (by decide)

/-- C2 (amended): an absent PAIRS override triggers default-pair generation,
but an explicitly supplied list — including the empty list, which is truthy
in JS — is used verbatim; and outside test mode the assembled config's
trading pairs are exactly this resolution. -/
theorem trading_pairs_resolution (cc : String → Bool) (env : Env) (fs : FS) :
    (env.pairs = none →
      resolveTradingPairs env (parseLedgers env) = generateDefaultPairs (parseLedgers env))
  ∧ (∀ l, env.pairs = some l → resolveTradingPairs env (parseLedgers env) = l)
  ∧ (∀ cfg, getLocalConfig cc env fs = .ok cfg → useTestConfig env = false →
      cfg.tradingPairs = resolveTradingPairs env (parseLedgers env)) := by
  refine ⟨?_, ?_, ?_⟩
  · intro h; simp [resolveTradingPairs, h]
  · intro l h; simp [resolveTradingPairs, h]
  · intro cfg hok htest
    exact (getLocalConfig_ok_fields cc env fs cfg hok).2.2.2.2.2.2.2 htest

/-- C2 counterexample: with two configured ledgers and `PAIRS` supplied as the
empty list, assembly succeeds with an empty trading-pair list even though
default generation would have produced a pair — the empty explicit list is
truthy in JS and does not trigger default generation. -/
theorem explicit_empty_pairs_not_defaulted :
    (getLocalConfig ccFalse envPairsEmpty fsEmpty).map (fun c => c.tradingPairs) = .ok []
  ∧ generateDefaultPairs (parseLedgers envPairsEmpty) = [["USD@L1", "EUR@L2"]] :=
  ⟨rfl, rfl⟩

/-- C2 witness: with PAIRS absent, the resolution is the generated
defaults. -/
theorem trading_pairs_resolution_witness :
    resolveTradingPairs envEmpty (parseLedgers envEmpty) =
      generateDefaultPairs (parseLedgers envEmpty) :=
  (trading_pairs_resolution ccFalse envEmpty fsEmpty).1 rfl

/-- C3 (amended): for the `|| DEFAULT` knobs (minMessageWindow, maxHoldTime
and the three route intervals) an absent or unparsable override yields the
documented default; for fxSpread and slippage only an absent or empty
override yields the default (a present unparsable one yields NaN instead,
see the counterexample); in all these cases assembly does not error on their
account. -/
theorem numeric_knob_defaults (cc : String → Bool) (env : Env) (fs : FS) (cfg : ResolvedConfig)
    (hok : getLocalConfig cc env fs = .ok cfg)
    (h1 : numFallback env.minMessageWindow) (h2 : numFallback env.maxHoldTime)
    (h3 : numFallback env.routeBroadcastInterval) (h4 : numFallback env.routeCleanupInterval)
    (h5 : numFallback env.routeExpiry)
    (h6 : env.fxSpread = none ∨ env.fxSpread = some "")
    (h7 : env.slippage = none ∨ env.slippage = some "") :
    cfg.expiry.minMessageWindow = .num DEFAULT_MIN_MESSAGE_WINDOW
  ∧ cfg.expiry.maxHoldTime = .num DEFAULT_MAX_HOLD_TIME
  ∧ cfg.routeBroadcastInterval = .num DEFAULT_ROUTE_BROADCAST_INTERVAL
  ∧ cfg.routeCleanupInterval = .num DEFAULT_ROUTE_CLEANUP_INTERVAL
  ∧ cfg.routeExpiry = .num DEFAULT_ROUTE_EXPIRY
  ∧ cfg.fxSpread = .num DEFAULT_FX_SPREAD
  ∧ cfg.slippage = .num DEFAULT_SLIPPAGE := by
  obtain ⟨hf, hs, hmw, hmh, hrb, hrc, hre, -⟩ := getLocalConfig_ok_fields cc env fs cfg hok
  exact ⟨hmw.trans (plusNumOrDefault_fallback _ _ h1),
    hmh.trans (plusNumOrDefault_fallback _ _ h2),
    hrb.trans (plusNumOrDefault_fallback _ _ h3),
    hrc.trans (plusNumOrDefault_fallback _ _ h4),
    hre.trans (plusNumOrDefault_fallback _ _ h5),
    hf.trans (ternaryNumOrDefault_falsy _ _ h6),
    hs.trans (ternaryNumOrDefault_falsy _ _ h7)⟩

/-- C3 counterexample: with `FX_SPREAD` set to a string that does not parse
as a number, assembly succeeds but the assembled fxSpread is NaN, not the
documented default 0.002 — refuting the claim that an unparsable override
falls back to the default for every numeric knob. -/
theorem fx_spread_unparsable_not_default :
    (getLocalConfig ccFalse envBadSpread fsEmpty).map (fun c => c.fxSpread) = .ok JsNum.nan
  ∧ JsNum.nan ≠ JsNum.num DEFAULT_FX_SPREAD :=
  ⟨rfl, by decide⟩

/-- C3 witness: on the empty environment every numeric knob assembles to its
documented default. -/
theorem numeric_knob_defaults_witness :
    cfg0.expiry.minMessageWindow = .num DEFAULT_MIN_MESSAGE_WINDOW
  ∧ cfg0.expiry.maxHoldTime = .num DEFAULT_MAX_HOLD_TIME
  ∧ cfg0.routeBroadcastInterval = .num DEFAULT_ROUTE_BROADCAST_INTERVAL
  ∧ cfg0.routeCleanupInterval = .num DEFAULT_ROUTE_CLEANUP_INTERVAL
  ∧ cfg0.routeExpiry = .num DEFAULT_ROUTE_EXPIRY
  ∧ cfg0.fxSpread = .num DEFAULT_FX_SPREAD
  ∧ cfg0.slippage = .num DEFAULT_SLIPPAGE :=
  numeric_knob_defaults ccFalse envEmpty fsEmpty cfg0 rfl (Or.inl rfl) (Or.inl rfl)
    (Or.inl rfl) (Or.inl rfl) (Or.inl rfl) (Or.inl rfl) (Or.inl rfl)

/-- C4 (amended): a ledger credential whose resolved connectivity type has no
`ilp-plugin-<type>` module available makes registry build fail with the
module system's generic module-not-found error naming the module (there is no
dedicated "no such plugin type" error in the code). -/
theorem unknown_plugin_module_not_found (world : PluginWorld) (cfg : ResolvedConfig)
    (id : String) (c : RawCredential) (rest : List (String × RawCredential))
    (hmod : world.available.contains ("ilp-plugin-" ++ jsOr c.type "bells") = false) :
    buildOne world cfg id c = .error (.moduleNotFound ("ilp-plugin-" ++ jsOr c.type "bells"))
  ∧ (cfg.ledgerCredentials = (id, c) :: rest →
      buildLedgers world cfg =
        .error (.moduleNotFound ("ilp-plugin-" ++ jsOr c.type "bells"))) := by
  have hmem : ¬("ilp-plugin-" ++ jsOr c.type "bells") ∈ world.available := by
    simpa using hmod
  have hone : buildOne world cfg id c =
      .error (.moduleNotFound ("ilp-plugin-" ++ jsOr c.type "bells")) := by
    unfold buildOne migrateCredential
    cases ht : truthy c.account_uri <;> simp [ht, hmem]
  refine ⟨hone, ?_⟩
  intro hcred
  unfold buildLedgers
  rw [hcred]
  simp [buildLedgersList, hone]

/-- C4 counterexample: with only the `bells` plugin installed, building the
registry over a credential of type `unknown` fails with the generic
module-lookup error for `ilp-plugin-unknown` — there is no dedicated "no such
plugin type" error, refuting the claim. -/
theorem unknown_plugin_generic_error :
    buildLedgers world1 { cfg0 with ledgerCredentials := [("red", credUnknownType)] } =
      .error (.moduleNotFound "ilp-plugin-unknown") := by
  decide

/-- C4 witness: the generic failure at a concrete unknown-typed credential. -/
theorem unknown_plugin_module_not_found_witness :
    buildOne world1 cfg0 "red" credUnknownType =
      .error (.moduleNotFound ("ilp-plugin-" ++ jsOr credUnknownType.type "bells")) :=
  (unknown_plugin_module_not_found world1 cfg0 "red" credUnknownType [] (by decide)).1

/-- C5 (amended): a ledger credential supplying a non-empty (truthy) legacy
`account_uri` is migrated by registry build: the credential handed to the
plugin factory has `account` equal to the original `account_uri`, no
`account_uri` remains, and the deprecation warning is logged.  (A credential
supplying `account_uri` as the empty string is left untouched, see the
counterexample.) -/
theorem account_uri_migration (world : PluginWorld) (cfg : ResolvedConfig) (id : String)
    (c : RawCredential) (htr : truthy c.account_uri = true)
    (hmod : world.available.contains ("ilp-plugin-" ++ jsOr c.type "bells") = true) :
    (buildOne world cfg id c).map
      (fun p => (p.1.options.auth.account, p.1.options.auth.account_uri, p.2)) =
    .ok (c.account_uri, none, [deprecationWarning]) := by
  have hmem : ("ilp-plugin-" ++ jsOr c.type "bells") ∈ world.available := by
    simpa using hmod
  simp [buildOne, migrateCredential, htr, hmem, Except.map]

/-- C5 counterexample: a credential supplying the legacy `account_uri` field
with value `""` is not migrated — after build the factory-visible credential
still has `account_uri` present (as `""`), `account` is absent, and no
deprecation warning was logged — refuting the claim for that input. -/
theorem empty_account_uri_not_migrated :
    (buildLedgers world1 { cfg0 with ledgerCredentials := [("red", credEmptyAccountUri)] }).map
      (fun p =>
        (p.1.map fun q => (q.1, q.2.options.auth.account_uri, q.2.options.auth.account), p.2)) =
    .ok ([("red", some "", none)], []) := by
  decide

/-- C5 witness: migration at a concrete credential with a non-empty legacy
field. -/
theorem account_uri_migration_witness :
    (buildOne world1 cfg0 "blue" credGood).map
      (fun p => (p.1.options.auth.account, p.1.options.auth.account_uri, p.2)) =
    .ok (credGood.account_uri, none, [deprecationWarning]) :=
  account_uri_migration world1 cfg0 "blue" credGood (by decide) (by decide)

/-- C6: config validation runs notifications, then ledger credentials, then
admin: a notification error is reported regardless of the other two, a
credential error is reported whenever notifications pass, and when both pass
the result is exactly the admin validation's. -/
theorem validation_order_fixed (cc : String → Bool) (fs : FS) (env : Env) :
    (∀ e, validateNotificationEnv cc env = .error e →
      validateLocalEnvConfig cc fs env = .error e)
  ∧ (validateNotificationEnv cc env = .ok () →
      ∀ e, validateCredentialsEnv fs env = .error e →
        validateLocalEnvConfig cc fs env = .error e)
  ∧ (validateNotificationEnv cc env = .ok () → validateCredentialsEnv fs env = .ok () →
      validateLocalEnvConfig cc fs env = validateAdminEnv fs env) := by
  refine ⟨?_, ?_, ?_⟩
  · intro e he; simp [validateLocalEnvConfig, he]
  · intro hn e he; simp [validateLocalEnvConfig, hn, he]
  · intro hn hc; simp [validateLocalEnvConfig, hn, hc]

/-- C6 witness: a notification-policy violation is the first error reported
on a concrete invalid input. -/
theorem validation_order_fixed_witness :
    validateLocalEnvConfig ccFalse fsEmpty envMissingKeys =
      .error (.error "Missing notification signing keys for ledger: http://usd-ledger.example") :=
  (validation_order_fixed ccFalse fsEmpty envMissingKeys).1
    (.error "Missing notification signing keys for ledger: http://usd-ledger.example")
    (by decide)

/-- C7: `getStatus()` returns true exactly when every registered handle's
`isConnected()` reports true; in this pure embedding it is a function of the
registry value alone, modifying nothing. -/
theorem getStatus_iff_all_connected (m : Multiledger) :
    getStatus m = true ↔ ∀ p ∈ m.ledgers, p.2.connected = true := by
  simp [getStatus, List.all_eq_true]

/-- C8: when the notification policy does not require verification the key
checks are skipped entirely; when it does, validation succeeds exactly when
every configured ledger URI has a key that passes the structural condition
check, and any failure is reported as an error naming an offending URI
(missing key, or structurally invalid key). -/
theorem notification_validation_characterization (cc : String → Bool) (env : Env) :
    ((parseNotificationSignEnv env).must_verify = false →
      validateNotificationEnv cc env = .ok ())
  ∧ ((parseNotificationSignEnv env).must_verify = true →
      (validateNotificationEnv cc env = .ok () ↔
        ∀ d ∈ parseLedgers env,
          ∃ k, env.notificationKeys.lookup d.ledger = some k ∧ cc k = true))
  ∧ (∀ e, validateNotificationEnv cc env = .error e →
      ∃ d ∈ parseLedgers env,
        (env.notificationKeys.lookup d.ledger = none ∧
          e = .error ("Missing notification signing keys for ledger: " ++ d.ledger))
        ∨ ∃ k, env.notificationKeys.lookup d.ledger = some k ∧ cc k = false ∧
            e = .error ("Failed to read signing key for ledger " ++ d.ledger)) := by
  refine ⟨?_, ?_, ?_⟩
  · intro h; simp [validateNotificationEnv, h]
  · intro h
    unfold validateNotificationEnv
    rw [h]
    simp only [if_true]
    exact checkLedgerKeys_ok_iff cc env.notificationKeys (parseLedgers env)
  · intro e he
    unfold validateNotificationEnv at he
    split at he
    · exact checkLedgerKeys_error cc env.notificationKeys (parseLedgers env) e he
    · exact Except.noConfusion he

/-- C8 witness: with verification off, validation is skipped and succeeds. -/
theorem notification_validation_characterization_witness :
    validateNotificationEnv ccFalse envEmpty = .ok () :=
  (notification_validation_characterization ccFalse envEmpty).1 rfl

/-- C9: configuration assembly is a pure function of the environment snapshot
and the filesystem contents — two runs over equal snapshots yield structurally
equal results. -/
theorem config_assembly_deterministic (cc : String → Bool) (env1 env2 : Env) (fs1 fs2 : FS)
    (henv : env1 = env2) (hfs : fs1 = fs2)
    (_hok : isOkE (getLocalConfig cc env1 fs1) = true) :
    getLocalConfig cc env1 fs1 = getLocalConfig cc env2 fs2 := by
  subst henv; subst hfs; rfl

/-- C9 witness: determinism at a concrete well-formed snapshot. -/
theorem config_assembly_deterministic_witness :
    getLocalConfig ccFalse envEmpty fsEmpty = getLocalConfig ccFalse envEmpty fsEmpty :=
  config_assembly_deterministic ccFalse envEmpty envEmpty fsEmpty fsEmpty rfl rfl (by decide)

/-- C10: a registry built from a configuration with zero ledger credentials
succeeds with an empty handle map, its health flag initialized to the
"not ok" status, and `getStatus()` on it returns true (the vacuous
all-connected truth of `_.every` over an empty collection). -/
theorem empty_registry_status_true (world : PluginWorld) (cfg : ResolvedConfig)
    (h : cfg.ledgerCredentials = []) :
    newMultiledger world cfg =
      .ok ({ ledgers := [], ledgersHealth := HealthStatus.statusNotOk }, [])
  ∧ getStatus { ledgers := [], ledgersHealth := HealthStatus.statusNotOk } = true := by
  constructor
  · unfold newMultiledger buildLedgers
    rw [h]
    rfl
  · rfl

/-- C10 witness: the vacuous truth at a concrete zero-credential config. -/
theorem empty_registry_status_true_witness :
    newMultiledger world1 cfg0 =
      .ok ({ ledgers := [], ledgersHealth := HealthStatus.statusNotOk }, [])
  ∧ getStatus { ledgers := [], ledgersHealth := HealthStatus.statusNotOk } = true :=
  empty_registry_status_true world1 cfg0 rfl
